import Mathlib

/-!
Verification of the NUT (Network UPS Tools) client library `nut-rs`.

This file gives a shallow embedding of the wire-protocol layer of the
repository:

* `rups/src/proto/mod.rs` — the `Word` vocabulary (`impl_words!`) and the
  sentence codec generated by `impl_sentences!` (`Sentences::decode`,
  `Sentences::encode`), instantiated for the server-bound catalog
  (`rups/src/proto/mod.rs`, `server_bound`) and the client-bound catalog
  (`rups/src/proto/client.rs`);
* `rups/src/cmd.rs` — the legacy connection driver: `Command`
  (`name`/`args`/`Display`), `Response::from_args`, the `expect_*` helpers,
  and the high-level operations `list_ups`, `run_command`,
  `get_server_version`;
* `rups/src/blocking/mod.rs` — `TcpConnection::write_cmd`, `parse_line`,
  `read_response`, `read_plain_response`, `read_list`;
* the `shell_words` tokenizer used by the driver, modelled from the
  specification (§4.1) since the crate is an external dependency.

Machine integers appear only as the `i32` parse in `NUMLOGINS`; it is
modelled with an explicit range check.  Fallible code returns `Except`,
and the decoder's fallible vector indexing (`raw[$argidx]`, which panics
in Rust when the index is out of bounds) is made explicit by a dedicated
result constructor.
-/

namespace NutRs

/-- Protocol words, from the `impl_words!` invocation in
`rups/src/proto/mod.rs`: the two meta-words `Arg` and `EOL` plus one
variant per protocol keyword.  The variants `FsdSet` (`"FSD-SET"`) and
`Goodbye` (`"Goodbye"`) are modelled from the spec's §3 word list: the
client-bound catalog under `src/` uses them but the `impl_words!`
invocation under `src/` predates them. -/
inductive Word
  | Arg
  | EOL
  | Begin
  | Client
  | Cmd
  | CmdDesc
  | Desc
  | End
  | Enum
  | Err
  | Fsd
  | FsdSet
  | Get
  | Help
  | Goodbye
  | InstCmd
  | List
  | Login
  | Logout
  | Master
  | NetworkVersion
  | NumLogins
  | Ok
  | Password
  | Range
  | Rw
  | Set
  | StartTLS
  | Type
  | Ups
  | UpsDesc
  | Username
  | Var
  | Version
  deriving DecidableEq, Repr

/-- The keyword arm of `Word::decode`: a raw string maps to its keyword
variant, an unrecognized string to `none`. -/
def wordOfString : String → Option Word
  | "BEGIN" => some .Begin
  | "CLIENT" => some .Client
  | "CMD" => some .Cmd
  | "CMDDESC" => some .CmdDesc
  | "DESC" => some .Desc
  | "END" => some .End
  | "ENUM" => some .Enum
  | "ERR" => some .Err
  | "FSD" => some .Fsd
  | "FSD-SET" => some .FsdSet
  | "GET" => some .Get
  | "Goodbye" => some .Goodbye
  | "HELP" => some .Help
  | "INSTCMD" => some .InstCmd
  | "LIST" => some .List
  | "LOGIN" => some .Login
  | "LOGOUT" => some .Logout
  | "MASTER" => some .Master
  | "NETVER" => some .NetworkVersion
  | "NUMLOGINS" => some .NumLogins
  | "OK" => some .Ok
  | "PASSWORD" => some .Password
  | "RANGE" => some .Range
  | "RW" => some .Rw
  | "SET" => some .Set
  | "STARTTLS" => some .StartTLS
  | "TYPE" => some .Type
  | "UPS" => some .Ups
  | "UPSDESC" => some .UpsDesc
  | "USERNAME" => some .Username
  | "VAR" => some .Var
  | "VERSION" => some .Version
  | _ => none

/-- `Word::decode`: passing `None` always yields `EOL`; an unrecognized
string yields `None`. -/
def decodeWord : Option String → Option Word
  | some raw => wordOfString raw
  | none => some Word.EOL

/-- `Word::decode_words`: decodes each raw token (unrecognized tokens
become `none`) and appends a `some EOL` sentinel. -/
def decodeWords (raw : List String) : List (Option Word) :=
  raw.map (fun r => decodeWord (some r)) ++ [some Word.EOL]

/-- `Word::encode`: `Arg` and `EOL` have no encoding. -/
def encodeWord : Word → Option String
  | .Arg => none
  | .EOL => none
  | .Begin => some "BEGIN"
  | .Client => some "CLIENT"
  | .Cmd => some "CMD"
  | .CmdDesc => some "CMDDESC"
  | .Desc => some "DESC"
  | .End => some "END"
  | .Enum => some "ENUM"
  | .Err => some "ERR"
  | .Fsd => some "FSD"
  | .FsdSet => some "FSD-SET"
  | .Get => some "GET"
  | .Goodbye => some "Goodbye"
  | .Help => some "HELP"
  | .InstCmd => some "INSTCMD"
  | .List => some "LIST"
  | .Login => some "LOGIN"
  | .Logout => some "LOGOUT"
  | .Master => some "MASTER"
  | .NetworkVersion => some "NETVER"
  | .NumLogins => some "NUMLOGINS"
  | .Ok => some "OK"
  | .Password => some "PASSWORD"
  | .Range => some "RANGE"
  | .Rw => some "RW"
  | .Set => some "SET"
  | .StartTLS => some "STARTTLS"
  | .Type => some "TYPE"
  | .Ups => some "UPS"
  | .UpsDesc => some "UPSDESC"
  | .Username => some "USERNAME"
  | .Var => some "VAR"
  | .Version => some "VERSION"

/-- `Word::matches`: the argument is `words.get(idx)` — an optional slot
(`none` past the end of the decoded vector) holding an optional word
(`none` for an unrecognized raw token).  `Arg` matches any existing slot;
a keyword matches an equal decoded word; `EOL` additionally matches a
slot holding an unrecognized token. -/
def wordMatches (w : Word) (other : Option (Option Word)) : Bool :=
  match other with
  | some other =>
    if w = Word.Arg then
      true
    else
      match other with
      | some o => decide (w = o)
      | none => decide (w = Word.EOL)
  | none => false

/-- Outcome of `Sentences::decode`.  `found` is Rust's `Some(sentence)`,
`noMatch` is Rust's `None`, and `crash` marks the panic of the
out-of-bounds vector indexing `raw[$argidx]` performed by the
`impl_sentences!` decoder when binding a named field. -/
inductive DResult (α : Type)
  | found (s : α)
  | noMatch
  | crash
  deriving DecidableEq, Repr

/-- Field binding `raw[$argidx].to_owned()` for a variant with one named
field: panics (`crash`) when the index is out of bounds. -/
def bindArg1 {α : Type} (raw : List String) (i : Nat) (k : String → α) : DResult α :=
  match raw.get? i with
  | some a => .found (k a)
  | none => .crash

/-- Field binding for a variant with two named fields. -/
def bindArg2 {α : Type} (raw : List String) (i j : Nat) (k : String → String → α) :
    DResult α :=
  match raw.get? i, raw.get? j with
  | some a, some b => .found (k a b)
  | _, _ => .crash

/-- Field binding for a variant with three named fields. -/
def bindArg3 {α : Type} (raw : List String) (i j l : Nat) (k : String → String → String → α) :
    DResult α :=
  match raw.get? i, raw.get? j, raw.get? l with
  | some a, some b, some c => .found (k a b c)
  | _, _, _ => .crash

/-- Field binding for a variant with four named fields. -/
def bindArg4 {α : Type} (raw : List String) (i j l m : Nat)
    (k : String → String → String → String → α) : DResult α :=
  match raw.get? i, raw.get? j, raw.get? l, raw.get? m with
  | some a, some b, some c, some d => .found (k a b c d)
  | _, _, _, _ => .crash

/-- Modelled from the spec: binding of one named field together with the
trailing variadic field (§4.3 "the variadic field (if any) from the
tail") — the `impl_sentences!` arm for variadic variants is missing from
the sources under `src/`.  The named field keeps the source's fallible
`raw[$argidx]` indexing; the tail is everything from the variadic index
onward. -/
def bindArg1Tail {α : Type} (raw : List String) (i t : Nat)
    (k : String → List String → α) : DResult α :=
  match raw.get? i with
  | some a => .found (k a (raw.drop t))
  | none => .crash

/-- Modelled from the spec: binding of two named fields plus the trailing
variadic field (see `bindArg1Tail`). -/
def bindArg2Tail {α : Type} (raw : List String) (i j t : Nat)
    (k : String → String → List String → α) : DResult α :=
  match raw.get? i, raw.get? j with
  | some a, some b => .found (k a b (raw.drop t))
  | _, _ => .crash

namespace ServerBound

/-- Server-bound protocol sentences: the `impl_sentences!` invocation in
the `server_bound` module of `rups/src/proto/mod.rs`, one variant per
sentence, each holding its named string fields. -/
inductive Sentences
  | QueryNumLogins (ups_name : String)
  | QueryUpsDesc (ups_name : String)
  | QueryVar (ups_name var_name : String)
  | QueryType (ups_name var_name : String)
  | QueryDesc (ups_name var_name : String)
  | QueryCmdDesc (ups_name cmd_name : String)
  | QueryListVar (ups_name : String)
  | QueryListRw (ups_name : String)
  | QueryListCmd (ups_name : String)
  | QueryListEnum (ups_name var_name : String)
  | QueryListRange (ups_name var_name : String)
  | QueryListClient (ups_name : String)
  | ExecSetVar (ups_name var_name value : String)
  | ExecInstCmd (ups_name cmd_name : String)
  | ExecLogout
  | ExecLogin (ups_name : String)
  | ExecMaster (ups_name : String)
  | ExecForcedShutDown (ups_name : String)
  | SetPassword (password : String)
  | SetUsername (username : String)
  | ExecStartTLS
  | QueryHelp
  | QueryVersion
  | QueryNetworkVersion
  deriving DecidableEq, Repr

/-- `Sentences::decode` for the server-bound catalog, as expanded from
`impl_sentences!`: the variants are tried in declaration order; the first
whose fixed word pattern matches has its named fields bound by indexing
into `raw`. -/
def decode (raw : List String) : DResult Sentences :=
  let words := decodeWords raw
  if true && wordMatches .Get (words.get? 0) && wordMatches .NumLogins (words.get? 1)
      && wordMatches .Arg (words.get? 2) && wordMatches .EOL (words.get? 3) then
    bindArg1 raw 2 Sentences.QueryNumLogins
  else if true && wordMatches .Get (words.get? 0) && wordMatches .UpsDesc (words.get? 1)
      && wordMatches .Arg (words.get? 2) && wordMatches .EOL (words.get? 3) then
    bindArg1 raw 2 Sentences.QueryUpsDesc
  else if true && wordMatches .Get (words.get? 0) && wordMatches .Var (words.get? 1)
      && wordMatches .Arg (words.get? 2) && wordMatches .Arg (words.get? 3)
      && wordMatches .EOL (words.get? 4) then
    bindArg2 raw 2 3 Sentences.QueryVar
  else if true && wordMatches .Get (words.get? 0) && wordMatches .Type (words.get? 1)
      && wordMatches .Arg (words.get? 2) && wordMatches .Arg (words.get? 3)
      && wordMatches .EOL (words.get? 4) then
    bindArg2 raw 2 3 Sentences.QueryType
  else if true && wordMatches .Get (words.get? 0) && wordMatches .Desc (words.get? 1)
      && wordMatches .Arg (words.get? 2) && wordMatches .Arg (words.get? 3)
      && wordMatches .EOL (words.get? 4) then
    bindArg2 raw 2 3 Sentences.QueryDesc
  else if true && wordMatches .Get (words.get? 0) && wordMatches .CmdDesc (words.get? 1)
      && wordMatches .Arg (words.get? 2) && wordMatches .Arg (words.get? 3)
      && wordMatches .EOL (words.get? 4) then
    bindArg2 raw 2 3 Sentences.QueryCmdDesc
  else if true && wordMatches .List (words.get? 0) && wordMatches .Var (words.get? 1)
      && wordMatches .Arg (words.get? 2) && wordMatches .EOL (words.get? 3) then
    bindArg1 raw 2 Sentences.QueryListVar
  else if true && wordMatches .List (words.get? 0) && wordMatches .Rw (words.get? 1)
      && wordMatches .Arg (words.get? 2) && wordMatches .EOL (words.get? 3) then
    bindArg1 raw 2 Sentences.QueryListRw
  else if true && wordMatches .List (words.get? 0) && wordMatches .Cmd (words.get? 1)
      && wordMatches .Arg (words.get? 2) && wordMatches .EOL (words.get? 3) then
    bindArg1 raw 2 Sentences.QueryListCmd
  else if true && wordMatches .List (words.get? 0) && wordMatches .Enum (words.get? 1)
      && wordMatches .Arg (words.get? 2) && wordMatches .Arg (words.get? 3)
      && wordMatches .EOL (words.get? 4) then
    bindArg2 raw 2 3 Sentences.QueryListEnum
  else if true && wordMatches .List (words.get? 0) && wordMatches .Range (words.get? 1)
      && wordMatches .Arg (words.get? 2) && wordMatches .Arg (words.get? 3)
      && wordMatches .EOL (words.get? 4) then
    bindArg2 raw 2 3 Sentences.QueryListRange
  else if true && wordMatches .List (words.get? 0) && wordMatches .Client (words.get? 1)
      && wordMatches .Arg (words.get? 2) && wordMatches .EOL (words.get? 3) then
    bindArg1 raw 2 Sentences.QueryListClient
  else if true && wordMatches .Set (words.get? 0) && wordMatches .Var (words.get? 1)
      && wordMatches .Arg (words.get? 2) && wordMatches .Arg (words.get? 3)
      && wordMatches .Arg (words.get? 4) && wordMatches .EOL (words.get? 5) then
    bindArg3 raw 2 3 4 Sentences.ExecSetVar
  else if true && wordMatches .InstCmd (words.get? 0) && wordMatches .Arg (words.get? 1)
      && wordMatches .Arg (words.get? 2) && wordMatches .EOL (words.get? 3) then
    bindArg2 raw 1 2 Sentences.ExecInstCmd
  else if true && wordMatches .Logout (words.get? 0) && wordMatches .EOL (words.get? 1) then
    DResult.found Sentences.ExecLogout
  else if true && wordMatches .Login (words.get? 0) && wordMatches .Arg (words.get? 1)
      && wordMatches .EOL (words.get? 2) then
    bindArg1 raw 1 Sentences.ExecLogin
  else if true && wordMatches .Master (words.get? 0) && wordMatches .Arg (words.get? 1)
      && wordMatches .EOL (words.get? 2) then
    bindArg1 raw 1 Sentences.ExecMaster
  else if true && wordMatches .Fsd (words.get? 0) && wordMatches .Arg (words.get? 1)
      && wordMatches .EOL (words.get? 2) then
    bindArg1 raw 1 Sentences.ExecForcedShutDown
  else if true && wordMatches .Password (words.get? 0) && wordMatches .Arg (words.get? 1)
      && wordMatches .EOL (words.get? 2) then
    bindArg1 raw 1 Sentences.SetPassword
  else if true && wordMatches .Username (words.get? 0) && wordMatches .Arg (words.get? 1)
      && wordMatches .EOL (words.get? 2) then
    bindArg1 raw 1 Sentences.SetUsername
  else if true && wordMatches .StartTLS (words.get? 0) && wordMatches .EOL (words.get? 1) then
    DResult.found Sentences.ExecStartTLS
  else if true && wordMatches .Help (words.get? 0) && wordMatches .EOL (words.get? 1) then
    DResult.found Sentences.QueryHelp
  else if true && wordMatches .Version (words.get? 0) && wordMatches .EOL (words.get? 1) then
    DResult.found Sentences.QueryVersion
  else if true && wordMatches .NetworkVersion (words.get? 0)
      && wordMatches .EOL (words.get? 1) then
    DResult.found Sentences.QueryNetworkVersion
  else
    DResult.noMatch

/-- `Sentences::encode` for the server-bound catalog, as expanded from
`impl_sentences!`: the pattern's words are encoded (meta-words encode to
`none`), the named fields overwrite their indices, and the result is
flattened. -/
def encode : Sentences → List String
  | .QueryNumLogins ups_name =>
    (([encodeWord .Get, encodeWord .NumLogins, encodeWord .Arg,
        encodeWord .EOL].set 2 (some ups_name)).filterMap id)
  | .QueryUpsDesc ups_name =>
    (([encodeWord .Get, encodeWord .UpsDesc, encodeWord .Arg,
        encodeWord .EOL].set 2 (some ups_name)).filterMap id)
  | .QueryVar ups_name var_name =>
    ((([encodeWord .Get, encodeWord .Var, encodeWord .Arg, encodeWord .Arg,
        encodeWord .EOL].set 2 (some ups_name)).set 3 (some var_name)).filterMap id)
  | .QueryType ups_name var_name =>
    ((([encodeWord .Get, encodeWord .Type, encodeWord .Arg, encodeWord .Arg,
        encodeWord .EOL].set 2 (some ups_name)).set 3 (some var_name)).filterMap id)
  | .QueryDesc ups_name var_name =>
    ((([encodeWord .Get, encodeWord .Desc, encodeWord .Arg, encodeWord .Arg,
        encodeWord .EOL].set 2 (some ups_name)).set 3 (some var_name)).filterMap id)
  | .QueryCmdDesc ups_name cmd_name =>
    ((([encodeWord .Get, encodeWord .CmdDesc, encodeWord .Arg, encodeWord .Arg,
        encodeWord .EOL].set 2 (some ups_name)).set 3 (some cmd_name)).filterMap id)
  | .QueryListVar ups_name =>
    (([encodeWord .List, encodeWord .Var, encodeWord .Arg,
        encodeWord .EOL].set 2 (some ups_name)).filterMap id)
  | .QueryListRw ups_name =>
    (([encodeWord .List, encodeWord .Rw, encodeWord .Arg,
        encodeWord .EOL].set 2 (some ups_name)).filterMap id)
  | .QueryListCmd ups_name =>
    (([encodeWord .List, encodeWord .Cmd, encodeWord .Arg,
        encodeWord .EOL].set 2 (some ups_name)).filterMap id)
  | .QueryListEnum ups_name var_name =>
    ((([encodeWord .List, encodeWord .Enum, encodeWord .Arg, encodeWord .Arg,
        encodeWord .EOL].set 2 (some ups_name)).set 3 (some var_name)).filterMap id)
  | .QueryListRange ups_name var_name =>
    ((([encodeWord .List, encodeWord .Range, encodeWord .Arg, encodeWord .Arg,
        encodeWord .EOL].set 2 (some ups_name)).set 3 (some var_name)).filterMap id)
  | .QueryListClient ups_name =>
    (([encodeWord .List, encodeWord .Client, encodeWord .Arg,
        encodeWord .EOL].set 2 (some ups_name)).filterMap id)
  | .ExecSetVar ups_name var_name value =>
    (((([encodeWord .Set, encodeWord .Var, encodeWord .Arg, encodeWord .Arg,
        encodeWord .Arg, encodeWord .EOL].set 2 (some ups_name)).set 3
        (some var_name)).set 4 (some value)).filterMap id)
  | .ExecInstCmd ups_name cmd_name =>
    ((([encodeWord .InstCmd, encodeWord .Arg, encodeWord .Arg,
        encodeWord .EOL].set 1 (some ups_name)).set 2 (some cmd_name)).filterMap id)
  | .ExecLogout =>
    ([encodeWord .Logout, encodeWord .EOL].filterMap id)
  | .ExecLogin ups_name =>
    (([encodeWord .Login, encodeWord .Arg, encodeWord .EOL].set 1
        (some ups_name)).filterMap id)
  | .ExecMaster ups_name =>
    (([encodeWord .Master, encodeWord .Arg, encodeWord .EOL].set 1
        (some ups_name)).filterMap id)
  | .ExecForcedShutDown ups_name =>
    (([encodeWord .Fsd, encodeWord .Arg, encodeWord .EOL].set 1
        (some ups_name)).filterMap id)
  | .SetPassword password =>
    (([encodeWord .Password, encodeWord .Arg, encodeWord .EOL].set 1
        (some password)).filterMap id)
  | .SetUsername username =>
    (([encodeWord .Username, encodeWord .Arg, encodeWord .EOL].set 1
        (some username)).filterMap id)
  | .ExecStartTLS =>
    ([encodeWord .StartTLS, encodeWord .EOL].filterMap id)
  | .QueryHelp =>
    ([encodeWord .Help, encodeWord .EOL].filterMap id)
  | .QueryVersion =>
    ([encodeWord .Version, encodeWord .EOL].filterMap id)
  | .QueryNetworkVersion =>
    ([encodeWord .NetworkVersion, encodeWord .EOL].filterMap id)

end ServerBound

namespace ClientBound

/-- Client-bound protocol sentences: the `impl_sentences!` invocation in
`rups/src/proto/client.rs`, one variant per sentence.  `RespondErr` and
`RespondType` additionally carry a trailing variadic field. -/
inductive Sentences
  | GenericOk
  | FsdOk
  | StartTLSOk
  | LogoutOk
  | RespondErr (message : String) (extras : List String)
  | RespondNumLogins (ups_name num_logins : String)
  | RespondUpsDesc (ups_name description : String)
  | RespondVar (ups_name var_name value : String)
  | RespondType (ups_name var_name : String) (var_types : List String)
  | RespondDesc (ups_name var_name description : String)
  | RespondCmdDesc (ups_name cmd_name description : String)
  | RespondUps (ups_name description : String)
  | RespondRw (ups_name var_name value : String)
  | RespondCmd (ups_name cmd_name : String)
  | RespondEnum (ups_name var_name enum_value : String)
  | RespondRange (ups_name var_name min_value max_value : String)
  | RespondClient (ups_name client_ip : String)
  | BeginListUps
  | EndListUps
  | BeginListVar (ups_name : String)
  | EndListVar (ups_name : String)
  | BeginListRw (ups_name : String)
  | EndListRw (ups_name : String)
  | BeginListCmd (ups_name : String)
  | EndListCmd (ups_name : String)
  | BeginListEnum (ups_name var_name : String)
  | EndListEnum (ups_name var_name : String)
  | BeginListRange (ups_name var_name : String)
  | EndListRange (ups_name var_name : String)
  | BeginListClient (ups_name : String)
  | EndListClient (ups_name : String)
  deriving DecidableEq, Repr

/-- `Sentences::decode` for the client-bound catalog, as expanded from
`impl_sentences!` (declaration order; first matching fixed pattern wins;
named fields bound by indexing into `raw`; the trailing variadic fields
of `RespondErr` and `RespondType` take the tail of `raw`, modelled from
the spec §4.3). -/
def decode (raw : List String) : DResult Sentences :=
  let words := decodeWords raw
  if true && wordMatches .Ok (words.get? 0) && wordMatches .EOL (words.get? 1) then
    DResult.found Sentences.GenericOk
  else if true && wordMatches .Ok (words.get? 0) && wordMatches .FsdSet (words.get? 1)
      && wordMatches .EOL (words.get? 2) then
    DResult.found Sentences.FsdOk
  else if true && wordMatches .Ok (words.get? 0) && wordMatches .StartTLS (words.get? 1)
      && wordMatches .EOL (words.get? 2) then
    DResult.found Sentences.StartTLSOk
  else if true && wordMatches .Ok (words.get? 0) && wordMatches .Goodbye (words.get? 1) then
    DResult.found Sentences.LogoutOk
  else if true && wordMatches .Err (words.get? 0) && wordMatches .Arg (words.get? 1) then
    bindArg1Tail raw 1 2 Sentences.RespondErr
  else if true && wordMatches .NumLogins (words.get? 0) && wordMatches .Arg (words.get? 1)
      && wordMatches .Arg (words.get? 2) && wordMatches .EOL (words.get? 3) then
    bindArg2 raw 1 2 Sentences.RespondNumLogins
  else if true && wordMatches .UpsDesc (words.get? 0) && wordMatches .Arg (words.get? 1)
      && wordMatches .Arg (words.get? 2) && wordMatches .EOL (words.get? 3) then
    bindArg2 raw 1 2 Sentences.RespondUpsDesc
  else if true && wordMatches .Var (words.get? 0) && wordMatches .Arg (words.get? 1)
      && wordMatches .Arg (words.get? 2) && wordMatches .Arg (words.get? 3)
      && wordMatches .EOL (words.get? 4) then
    bindArg3 raw 1 2 3 Sentences.RespondVar
  else if true && wordMatches .Type (words.get? 0) && wordMatches .Arg (words.get? 1)
      && wordMatches .Arg (words.get? 2) then
    bindArg2Tail raw 1 2 3 Sentences.RespondType
  else if true && wordMatches .Desc (words.get? 0) && wordMatches .Arg (words.get? 1)
      && wordMatches .Arg (words.get? 2) && wordMatches .Arg (words.get? 3)
      && wordMatches .EOL (words.get? 4) then
    bindArg3 raw 1 2 3 Sentences.RespondDesc
  else if true && wordMatches .CmdDesc (words.get? 0) && wordMatches .Arg (words.get? 1)
      && wordMatches .Arg (words.get? 2) && wordMatches .Arg (words.get? 3)
      && wordMatches .EOL (words.get? 4) then
    bindArg3 raw 1 2 3 Sentences.RespondCmdDesc
  else if true && wordMatches .Ups (words.get? 0) && wordMatches .Arg (words.get? 1)
      && wordMatches .Arg (words.get? 2) && wordMatches .EOL (words.get? 3) then
    bindArg2 raw 1 2 Sentences.RespondUps
  else if true && wordMatches .Rw (words.get? 0) && wordMatches .Arg (words.get? 1)
      && wordMatches .Arg (words.get? 2) && wordMatches .Arg (words.get? 3)
      && wordMatches .EOL (words.get? 4) then
    bindArg3 raw 1 2 3 Sentences.RespondRw
  else if true && wordMatches .Cmd (words.get? 0) && wordMatches .Arg (words.get? 1)
      && wordMatches .Arg (words.get? 2) && wordMatches .EOL (words.get? 3) then
    bindArg2 raw 1 2 Sentences.RespondCmd
  else if true && wordMatches .Enum (words.get? 0) && wordMatches .Arg (words.get? 1)
      && wordMatches .Arg (words.get? 2) && wordMatches .Arg (words.get? 3)
      && wordMatches .EOL (words.get? 4) then
    bindArg3 raw 1 2 3 Sentences.RespondEnum
  else if true && wordMatches .Range (words.get? 0) && wordMatches .Arg (words.get? 1)
      && wordMatches .Arg (words.get? 2) && wordMatches .Arg (words.get? 3)
      && wordMatches .Arg (words.get? 4) && wordMatches .EOL (words.get? 5) then
    bindArg4 raw 1 2 3 4 Sentences.RespondRange
  else if true && wordMatches .Client (words.get? 0) && wordMatches .Arg (words.get? 1)
      && wordMatches .Arg (words.get? 2) && wordMatches .EOL (words.get? 3) then
    bindArg2 raw 1 2 Sentences.RespondClient
  else if true && wordMatches .Begin (words.get? 0) && wordMatches .List (words.get? 1)
      && wordMatches .Ups (words.get? 2) && wordMatches .EOL (words.get? 3) then
    DResult.found Sentences.BeginListUps
  else if true && wordMatches .End (words.get? 0) && wordMatches .List (words.get? 1)
      && wordMatches .Ups (words.get? 2) && wordMatches .EOL (words.get? 3) then
    DResult.found Sentences.EndListUps
  else if true && wordMatches .Begin (words.get? 0) && wordMatches .List (words.get? 1)
      && wordMatches .Var (words.get? 2) && wordMatches .Arg (words.get? 3)
      && wordMatches .EOL (words.get? 4) then
    bindArg1 raw 3 Sentences.BeginListVar
  else if true && wordMatches .End (words.get? 0) && wordMatches .List (words.get? 1)
      && wordMatches .Var (words.get? 2) && wordMatches .Arg (words.get? 3)
      && wordMatches .EOL (words.get? 4) then
    bindArg1 raw 3 Sentences.EndListVar
  else if true && wordMatches .Begin (words.get? 0) && wordMatches .List (words.get? 1)
      && wordMatches .Rw (words.get? 2) && wordMatches .Arg (words.get? 3)
      && wordMatches .EOL (words.get? 4) then
    bindArg1 raw 3 Sentences.BeginListRw
  else if true && wordMatches .End (words.get? 0) && wordMatches .List (words.get? 1)
      && wordMatches .Rw (words.get? 2) && wordMatches .Arg (words.get? 3)
      && wordMatches .EOL (words.get? 4) then
    bindArg1 raw 3 Sentences.EndListRw
  else if true && wordMatches .Begin (words.get? 0) && wordMatches .List (words.get? 1)
      && wordMatches .Cmd (words.get? 2) && wordMatches .Arg (words.get? 3)
      && wordMatches .EOL (words.get? 4) then
    bindArg1 raw 3 Sentences.BeginListCmd
  else if true && wordMatches .End (words.get? 0) && wordMatches .List (words.get? 1)
      && wordMatches .Cmd (words.get? 2) && wordMatches .Arg (words.get? 3)
      && wordMatches .EOL (words.get? 4) then
    bindArg1 raw 3 Sentences.EndListCmd
  else if true && wordMatches .Begin (words.get? 0) && wordMatches .List (words.get? 1)
      && wordMatches .Enum (words.get? 2) && wordMatches .Arg (words.get? 3)
      && wordMatches .Arg (words.get? 4) && wordMatches .EOL (words.get? 5) then
    bindArg2 raw 3 4 Sentences.BeginListEnum
  else if true && wordMatches .End (words.get? 0) && wordMatches .List (words.get? 1)
      && wordMatches .Enum (words.get? 2) && wordMatches .Arg (words.get? 3)
      && wordMatches .Arg (words.get? 4) && wordMatches .EOL (words.get? 5) then
    bindArg2 raw 3 4 Sentences.EndListEnum
  else if true && wordMatches .Begin (words.get? 0) && wordMatches .List (words.get? 1)
      && wordMatches .Range (words.get? 2) && wordMatches .Arg (words.get? 3)
      && wordMatches .Arg (words.get? 4) && wordMatches .EOL (words.get? 5) then
    bindArg2 raw 3 4 Sentences.BeginListRange
  else if true && wordMatches .End (words.get? 0) && wordMatches .List (words.get? 1)
      && wordMatches .Range (words.get? 2) && wordMatches .Arg (words.get? 3)
      && wordMatches .Arg (words.get? 4) && wordMatches .EOL (words.get? 5) then
    bindArg2 raw 3 4 Sentences.EndListRange
  else if true && wordMatches .Begin (words.get? 0) && wordMatches .List (words.get? 1)
      && wordMatches .Client (words.get? 2) && wordMatches .Arg (words.get? 3)
      && wordMatches .EOL (words.get? 4) then
    bindArg1 raw 3 Sentences.BeginListClient
  else if true && wordMatches .End (words.get? 0) && wordMatches .List (words.get? 1)
      && wordMatches .Client (words.get? 2) && wordMatches .Arg (words.get? 3)
      && wordMatches .EOL (words.get? 4) then
    bindArg1 raw 3 Sentences.EndListClient
  else
    DResult.noMatch

/-- `Sentences::encode` for the client-bound catalog (pattern words with
named fields overwritten at their indices, flattened; the variadic tails
of `RespondErr` and `RespondType` are appended in order, modelled from
the spec §4.3). -/
def encode : Sentences → List String
  | .GenericOk =>
    ([encodeWord .Ok, encodeWord .EOL].filterMap id)
  | .FsdOk =>
    ([encodeWord .Ok, encodeWord .FsdSet, encodeWord .EOL].filterMap id)
  | .StartTLSOk =>
    ([encodeWord .Ok, encodeWord .StartTLS, encodeWord .EOL].filterMap id)
  | .LogoutOk =>
    ([encodeWord .Ok, encodeWord .Goodbye].filterMap id)
  | .RespondErr message extras =>
    (([encodeWord .Err, encodeWord .Arg].set 1 (some message)).filterMap id) ++ extras
  | .RespondNumLogins ups_name num_logins =>
    ((([encodeWord .NumLogins, encodeWord .Arg, encodeWord .Arg,
        encodeWord .EOL].set 1 (some ups_name)).set 2 (some num_logins)).filterMap id)
  | .RespondUpsDesc ups_name description =>
    ((([encodeWord .UpsDesc, encodeWord .Arg, encodeWord .Arg,
        encodeWord .EOL].set 1 (some ups_name)).set 2 (some description)).filterMap id)
  | .RespondVar ups_name var_name value =>
    (((([encodeWord .Var, encodeWord .Arg, encodeWord .Arg, encodeWord .Arg,
        encodeWord .EOL].set 1 (some ups_name)).set 2 (some var_name)).set 3
        (some value)).filterMap id)
  | .RespondType ups_name var_name var_types =>
    ((([encodeWord .Type, encodeWord .Arg, encodeWord .Arg].set 1
        (some ups_name)).set 2 (some var_name)).filterMap id) ++ var_types
  | .RespondDesc ups_name var_name description =>
    (((([encodeWord .Desc, encodeWord .Arg, encodeWord .Arg, encodeWord .Arg,
        encodeWord .EOL].set 1 (some ups_name)).set 2 (some var_name)).set 3
        (some description)).filterMap id)
  | .RespondCmdDesc ups_name cmd_name description =>
    (((([encodeWord .CmdDesc, encodeWord .Arg, encodeWord .Arg, encodeWord .Arg,
        encodeWord .EOL].set 1 (some ups_name)).set 2 (some cmd_name)).set 3
        (some description)).filterMap id)
  | .RespondUps ups_name description =>
    ((([encodeWord .Ups, encodeWord .Arg, encodeWord .Arg,
        encodeWord .EOL].set 1 (some ups_name)).set 2 (some description)).filterMap id)
  | .RespondRw ups_name var_name value =>
    (((([encodeWord .Rw, encodeWord .Arg, encodeWord .Arg, encodeWord .Arg,
        encodeWord .EOL].set 1 (some ups_name)).set 2 (some var_name)).set 3
        (some value)).filterMap id)
  | .RespondCmd ups_name cmd_name =>
    ((([encodeWord .Cmd, encodeWord .Arg, encodeWord .Arg,
        encodeWord .EOL].set 1 (some ups_name)).set 2 (some cmd_name)).filterMap id)
  | .RespondEnum ups_name var_name enum_value =>
    (((([encodeWord .Enum, encodeWord .Arg, encodeWord .Arg, encodeWord .Arg,
        encodeWord .EOL].set 1 (some ups_name)).set 2 (some var_name)).set 3
        (some enum_value)).filterMap id)
  | .RespondRange ups_name var_name min_value max_value =>
    ((((([encodeWord .Range, encodeWord .Arg, encodeWord .Arg, encodeWord .Arg,
        encodeWord .Arg, encodeWord .EOL].set 1 (some ups_name)).set 2
        (some var_name)).set 3 (some min_value)).set 4 (some max_value)).filterMap id)
  | .RespondClient ups_name client_ip =>
    ((([encodeWord .Client, encodeWord .Arg, encodeWord .Arg,
        encodeWord .EOL].set 1 (some ups_name)).set 2 (some client_ip)).filterMap id)
  | .BeginListUps =>
    ([encodeWord .Begin, encodeWord .List, encodeWord .Ups,
        encodeWord .EOL].filterMap id)
  | .EndListUps =>
    ([encodeWord .End, encodeWord .List, encodeWord .Ups,
        encodeWord .EOL].filterMap id)
  | .BeginListVar ups_name =>
    (([encodeWord .Begin, encodeWord .List, encodeWord .Var, encodeWord .Arg,
        encodeWord .EOL].set 3 (some ups_name)).filterMap id)
  | .EndListVar ups_name =>
    (([encodeWord .End, encodeWord .List, encodeWord .Var, encodeWord .Arg,
        encodeWord .EOL].set 3 (some ups_name)).filterMap id)
  | .BeginListRw ups_name =>
    (([encodeWord .Begin, encodeWord .List, encodeWord .Rw, encodeWord .Arg,
        encodeWord .EOL].set 3 (some ups_name)).filterMap id)
  | .EndListRw ups_name =>
    (([encodeWord .End, encodeWord .List, encodeWord .Rw, encodeWord .Arg,
        encodeWord .EOL].set 3 (some ups_name)).filterMap id)
  | .BeginListCmd ups_name =>
    (([encodeWord .Begin, encodeWord .List, encodeWord .Cmd, encodeWord .Arg,
        encodeWord .EOL].set 3 (some ups_name)).filterMap id)
  | .EndListCmd ups_name =>
    (([encodeWord .End, encodeWord .List, encodeWord .Cmd, encodeWord .Arg,
        encodeWord .EOL].set 3 (some ups_name)).filterMap id)
  | .BeginListEnum ups_name var_name =>
    ((([encodeWord .Begin, encodeWord .List, encodeWord .Enum, encodeWord .Arg,
        encodeWord .Arg, encodeWord .EOL].set 3 (some ups_name)).set 4
        (some var_name)).filterMap id)
  | .EndListEnum ups_name var_name =>
    ((([encodeWord .End, encodeWord .List, encodeWord .Enum, encodeWord .Arg,
        encodeWord .Arg, encodeWord .EOL].set 3 (some ups_name)).set 4
        (some var_name)).filterMap id)
  | .BeginListRange ups_name var_name =>
    ((([encodeWord .Begin, encodeWord .List, encodeWord .Range, encodeWord .Arg,
        encodeWord .Arg, encodeWord .EOL].set 3 (some ups_name)).set 4
        (some var_name)).filterMap id)
  | .EndListRange ups_name var_name =>
    ((([encodeWord .End, encodeWord .List, encodeWord .Range, encodeWord .Arg,
        encodeWord .Arg, encodeWord .EOL].set 3 (some ups_name)).set 4
        (some var_name)).filterMap id)
  | .BeginListClient ups_name =>
    (([encodeWord .Begin, encodeWord .List, encodeWord .Client, encodeWord .Arg,
        encodeWord .EOL].set 3 (some ups_name)).filterMap id)
  | .EndListClient ups_name =>
    (([encodeWord .End, encodeWord .List, encodeWord .Client, encodeWord .Arg,
        encodeWord .EOL].set 3 (some ups_name)).filterMap id)

end ClientBound

/-! ### The tokenizer

`rups` delegates line tokenization to the external `shell_words` crate
(`shell_words::split` in `TcpConnection::parse_line`, `shell_words::join`
in `Command`'s `Display` and in `Response::from_args` /
`Response::expect_begin_list`).  The crate is not part of the repository,
so it is modelled from the specification §4.1.
-/

/-- The single-quote character. -/
def squoteChar : Char := Char.ofNat 39

/-- The double-quote character. -/
def dquoteChar : Char := Char.ofNat 34

/-- The backslash character. -/
def backslashChar : Char := Char.ofNat 92

/-- Modelled from the spec: tokenizer whitespace (§4.1 "whitespace
separates tokens"). -/
def isWsChar (c : Char) : Bool :=
  c = ' ' || c = Char.ofNat 9 || c = Char.ofNat 10

/-- Modelled from the spec: characters safe to emit unquoted — anything
else (whitespace, quote characters, shell metacharacters, and other
non-word characters) forces the token to be quoted (§4.1). -/
def isSafeChar (c : Char) : Bool :=
  c.isAlphanum || c = '-' || c = '_' || c = '=' || c = '/' || c = ',' ||
    c = '.' || c = '+' || c = ':' || c = '@' || c = '%'

/-- Modelled from the spec: escaping inside a double-quoted token — a
backslash escapes the quote character and the backslash itself (§4.1). -/
def escDq : List Char → List Char
  | [] => []
  | c :: cs =>
    (if c = dquoteChar || c = backslashChar then [backslashChar, c] else [c]) ++ escDq cs

/-- Modelled from the spec: quoting of a single token (§4.1 "re-quoting
any token that contains whitespace, quote characters, or shell
metacharacters, choosing single quotes unless the token contains a
single quote (in which case use double quotes with appropriate
escaping)"). -/
def quoteToken (w : List Char) : List Char :=
  if !w.isEmpty && w.all isSafeChar then w
  else if !(w.contains squoteChar) then squoteChar :: (w ++ [squoteChar])
  else dquoteChar :: (escDq w ++ [dquoteChar])

/-- Modelled from the spec: `shell_words::join` — quote each token and
separate with single spaces (§4.1). -/
def joinChars : List (List Char) → List Char
  | [] => []
  | [w] => quoteToken w
  | w :: ws => quoteToken w ++ ' ' :: joinChars ws

/-- Lexer state of the tokenizer: outside quotes, inside single quotes,
inside double quotes, or immediately after a backslash inside double
quotes. -/
inductive SplitMode
  | norm
  | insingle
  | indouble
  | inescape

/-- Modelled from the spec: `shell_words::split` as a character-at-a-time
state machine (§4.1): whitespace separates tokens, single- and
double-quoted substrings are single tokens with inner whitespace
preserved, a backslash inside double quotes escapes the next character,
and unbalanced quotes are a tokenization failure (`none`). -/
def splitLoop : List Char → SplitMode → List Char → Bool → Option (List (List Char))
  | [], .norm, acc, started => some (if started then [acc.reverse] else [])
  | [], _, _, _ => none
  | c :: cs, .norm, acc, started =>
    if isWsChar c then
      if started then (splitLoop cs .norm [] false).map (fun ts => acc.reverse :: ts)
      else splitLoop cs .norm [] false
    else if c = squoteChar then splitLoop cs .insingle acc true
    else if c = dquoteChar then splitLoop cs .indouble acc true
    else splitLoop cs .norm (c :: acc) true
  | c :: cs, .insingle, acc, started =>
    if c = squoteChar then splitLoop cs .norm acc started
    else splitLoop cs .insingle (c :: acc) started
  | c :: cs, .indouble, acc, started =>
    if c = dquoteChar then splitLoop cs .norm acc started
    else if c = backslashChar then splitLoop cs .inescape acc started
    else splitLoop cs .indouble (c :: acc) started
  | c :: cs, .inescape, acc, started => splitLoop cs .indouble (c :: acc) started

/-- `shell_words::split` on a string. -/
def splitModel (s : String) : Option (List String) :=
  (splitLoop s.data .norm [] false).map (List.map String.mk)

/-- `shell_words::join` on a list of tokens. -/
def joinModel (ts : List String) : String :=
  String.mk (joinChars (ts.map String.data))

theorem isWsChar_of_safe (c : Char) (h : isSafeChar c = true) : isWsChar c = false := by
  cases hw : isWsChar c
  · rfl
  · exfalso
    have : (c = ' ' ∨ c = Char.ofNat 9) ∨ c = Char.ofNat 10 := by
      simpa [isWsChar] using hw
    rcases this with (rfl | rfl) | rfl <;> exact absurd h (by decide)

theorem ne_squote_of_safe (c : Char) (h : isSafeChar c = true) : ¬(c = squoteChar) := by
  intro hc
  subst hc
  exact absurd h (by decide)

theorem ne_dquote_of_safe (c : Char) (h : isSafeChar c = true) : ¬(c = dquoteChar) := by
  intro hc
  subst hc
  exact absurd h (by decide)

theorem splitLoop_safe_chunk (w : List Char) (hw : w.all isSafeChar = true) :
    ∀ rest acc started, splitLoop (w ++ rest) .norm acc started =
      splitLoop rest .norm (w.reverse ++ acc) (started || !w.isEmpty) := by
  induction w with
  | nil => intro rest acc started; simp
  | cons c cs ih =>
    intro rest acc started
    rw [List.all_cons, Bool.and_eq_true] at hw
    rw [List.cons_append]
    show splitLoop (c :: (cs ++ rest)) .norm acc started = _
    rw [splitLoop]
    simp only [isWsChar_of_safe c hw.1, ne_squote_of_safe c hw.1, ne_dquote_of_safe c hw.1,
      if_false, Bool.false_eq_true, ite_false]
    rw [ih hw.2]
    simp
theorem splitLoop_single_chunk (w : List Char) (hw : ¬(squoteChar ∈ w)) :
    ∀ rest acc st, splitLoop (w ++ squoteChar :: rest) .insingle acc st =
      splitLoop rest .norm (w.reverse ++ acc) st := by
  induction w with
  | nil =>
    intro rest acc st
    simp [splitLoop]
  | cons c cs ih =>
    intro rest acc st
    have hc : ¬(c = squoteChar) := fun h => hw (h ▸ List.mem_cons_self c cs)
    have hcs : ¬(squoteChar ∈ cs) := fun h => hw (List.mem_cons_of_mem c h)
    rw [List.cons_append]
    show splitLoop (c :: (cs ++ squoteChar :: rest)) .insingle acc st = _
    rw [splitLoop]
    simp only [hc, ite_false]
    rw [ih hcs]
    simp

theorem splitLoop_double_chunk (w : List Char) :
    ∀ rest acc st, splitLoop (escDq w ++ dquoteChar :: rest) .indouble acc st =
      splitLoop rest .norm (w.reverse ++ acc) st := by
  induction w with
  | nil =>
    intro rest acc st
    simp [escDq, splitLoop]
  | cons c cs ih =>
    intro rest acc st
    by_cases hc : c = dquoteChar || c = backslashChar
    · rw [escDq, if_pos hc]
      show splitLoop (backslashChar :: c :: (escDq cs ++ dquoteChar :: rest))
          .indouble acc st = _
      rw [splitLoop]
      simp only [show ¬(backslashChar = dquoteChar) from by decide, ite_false, if_pos rfl]
      rw [show splitLoop (c :: (escDq cs ++ dquoteChar :: rest)) .inescape acc st =
        splitLoop (escDq cs ++ dquoteChar :: rest) .indouble (c :: acc) st from rfl]
      rw [ih]
      simp
    · rw [escDq, if_neg hc]
      rw [Bool.or_eq_true, not_or] at hc
      have h1 : ¬(c = dquoteChar) := by simpa using hc.1
      have h2 : ¬(c = backslashChar) := by simpa using hc.2
      show splitLoop (c :: (escDq cs ++ dquoteChar :: rest)) .indouble acc st = _
      rw [splitLoop]
      simp only [h1, h2, ite_false]
      rw [ih]
      simp

theorem splitLoop_token (w : List Char) (rest : List Char) :
    splitLoop (quoteToken w ++ rest) .norm [] false =
      splitLoop rest .norm w.reverse true := by
  unfold quoteToken
  by_cases h1 : (!w.isEmpty && w.all isSafeChar) = true
  · rw [if_pos h1]
    rw [Bool.and_eq_true] at h1
    rw [splitLoop_safe_chunk w h1.2]
    simp [h1.1]
  · rw [if_neg h1]
    by_cases h2 : (!(w.contains squoteChar)) = true
    · rw [if_pos h2]
      have hmem : ¬(squoteChar ∈ w) := by simpa using h2
      show splitLoop (squoteChar :: ((w ++ [squoteChar]) ++ rest)) .norm [] false = _
      rw [splitLoop]
      simp only [show isWsChar squoteChar = false from by decide, Bool.false_eq_true,
        ite_false, if_pos rfl]
      rw [List.append_assoc, List.singleton_append]
      rw [splitLoop_single_chunk w hmem]
      simp
    · rw [if_neg h2]
      show splitLoop (dquoteChar :: ((escDq w ++ [dquoteChar]) ++ rest)) .norm [] false = _
      rw [splitLoop]
      simp only [show isWsChar dquoteChar = false from by decide, Bool.false_eq_true,
        ite_false, show ¬(dquoteChar = squoteChar) from by decide, if_pos rfl]
      rw [List.append_assoc, List.singleton_append]
      rw [splitLoop_double_chunk w]
      simp

theorem splitLoop_joinChars (ts : List (List Char)) :
    splitLoop (joinChars ts) .norm [] false = some ts := by
  induction ts with
  | nil => rfl
  | cons w ws ih =>
    cases ws with
    | nil =>
      show splitLoop (quoteToken w) .norm [] false = some [w]
      rw [show quoteToken w = quoteToken w ++ [] from (List.append_nil _).symm]
      rw [splitLoop_token w []]
      show some [w.reverse.reverse] = some [w]
      rw [List.reverse_reverse]
    | cons x xs =>
      show splitLoop (quoteToken w ++ ' ' :: joinChars (x :: xs)) .norm [] false = _
      rw [splitLoop_token w]
      rw [splitLoop]
      simp only [show isWsChar ' ' = true from by decide, ite_true]
      rw [ih]
      simp

/-- `split ∘ join = some`: the modelled tokenizer round-trips every token
list (spec §4.1 "The join function MUST be an inverse of the split
function"). -/
theorem splitModel_joinModel (ts : List String) : splitModel (joinModel ts) = some ts := by
  unfold splitModel joinModel
  rw [show (String.mk (joinChars (ts.map String.data))).data
      = joinChars (ts.map String.data) from rfl]
  rw [splitLoop_joinChars]
  have hfun : String.mk ∘ String.data = id := funext fun s => rfl
  simp [List.map_map, hfun]

/-- `join` is injective on token lists. -/
theorem joinModel_injective (ts qs : List String) (h : joinModel ts = joinModel qs) :
    ts = qs := by
  have := congrArg splitModel h
  rw [splitModel_joinModel, splitModel_joinModel] at this
  exact Option.some.inj this
/-! ### The legacy connection driver (`rups/src/cmd.rs`, `rups/src/blocking/mod.rs`) -/

/-- `NutError` (`rups/src/error.rs` / `nut-client/src/error.rs`),
restricted to the variants produced by `Response::from_args` and the
`expect_*` helpers in `rups/src/cmd.rs`. -/
inductive NutError
  | AccessDenied
  | UnknownUps
  | FeatureNotConfigured
  | UnexpectedResponse
  | UnknownResponseType (ty : String)
  | Generic (msg : String)
  deriving DecidableEq, Repr

/-- `ClientError`: either an IO error (carrying only a message here) or a
NUT error. -/
inductive ClientError
  | Io (msg : String)
  | Nut (e : NutError)
  deriving DecidableEq, Repr

/-- `ClientError::generic`: wraps a message as `Nut(Generic(msg))`. -/
def ClientError.generic (msg : String) : ClientError :=
  ClientError.Nut (NutError.Generic msg)

/-- `Command` (`rups/src/cmd.rs`). -/
inductive Command
  | Get (cmd : List String)
  | SetUsername (username : String)
  | SetPassword (password : String)
  | List (query : List String)
  | StartTLS
  | NetworkVersion
  | Version
  | Run (cmd : String) (param : Option String)
  | Logout
  deriving DecidableEq, Repr

/-- `Command::name`: the network identifier of the command. -/
def commandName : Command → String
  | .Get _ => "GET"
  | .SetUsername _ => "USERNAME"
  | .SetPassword _ => "PASSWORD"
  | .List _ => "LIST"
  | .StartTLS => "STARTTLS"
  | .NetworkVersion => "NETVER"
  | .Version => "VER"
  | .Run _ _ => "INSTCMD"
  | .Logout => "LOGOUT"

/-- `Command::args`: the arguments of the command to serialize. -/
def commandArgs : Command → List String
  | .Get cmd => cmd
  | .SetUsername username => [username]
  | .SetPassword password => [password]
  | .List query => query
  | .Run cmd param =>
    match param with
    | some p => [cmd, p]
    | none => [cmd]
  | _ => []

/-- The full wire line written by `TcpConnection::write_cmd`: the
`Display` impl joins the name and arguments with `shell_words::join`, and
`write_cmd` appends the newline (`format!("{}\n", line)`). -/
def commandLine (c : Command) : String :=
  joinModel (commandName c :: commandArgs c) ++ "\n"

/-- `Response` (`rups/src/cmd.rs`).  `Range` holds the two strings of
`VariableRange(min, max)`; `NumLogins` holds the parsed `i32` as an
integer (its range is enforced by `parseI32`). -/
inductive Response
  | Ok
  | BeginList (query : String)
  | EndList (query : String)
  | Var (name value : String)
  | Ups (name description : String)
  | Client (ip : String)
  | Cmd (name : String)
  | CmdDesc (description : String)
  | UpsDesc (description : String)
  | Rw (name value : String)
  | Desc (description : String)
  | NumLogins (n : Int)
  | Type (name : String) (types : List String)
  | Range (min max : String)
  | Enum (value : String)
  deriving DecidableEq, Repr

/-- Value of a nonempty all-digit character list, `none` otherwise. -/
def digitsVal (cs : List Char) : Option Nat :=
  if !cs.isEmpty && cs.all Char.isDigit then
    some (cs.foldl (fun a c => a * 10 + (c.toNat - 48)) 0)
  else
    none

/-- Rust `str::parse::<i32>`: optional sign, at least one digit, result
within the `i32` range. -/
def parseI32 (s : String) : Option Int :=
  match s.data with
  | '+' :: rest =>
    match digitsVal rest with
    | some n => if n ≤ 2 ^ 31 - 1 then some (n : Int) else none
    | none => none
  | '-' :: rest =>
    match digitsVal rest with
    | some n => if n ≤ 2 ^ 31 then some (-(n : Int)) else none
    | none => none
  | cs =>
    match digitsVal cs with
    | some n => if n ≤ 2 ^ 31 - 1 then some (n : Int) else none
    | none => none

/-- `Response::from_args` (`rups/src/cmd.rs`): parse one tokenized
response line.  The successive `args.remove(0)` calls with their
emptiness checks become nested list patterns; the generic-error message
for an unknown `ERR` code keeps the `format!` shape with the remaining
args joined by single spaces. -/
def Response.fromArgs (args : List String) : Except ClientError Response :=
  match args with
  | [] => .error (ClientError.generic "Parsing server response failed: empty line")
  | cmd_name :: args =>
    if cmd_name = "OK" then
      .ok .Ok
    else if cmd_name = "ERR" then
      match args with
      | [] => .error (ClientError.generic "Unspecified server error")
      | err_type :: args =>
        if err_type = "ACCESS-DENIED" then .error (.Nut .AccessDenied)
        else if err_type = "UNKNOWN-UPS" then .error (.Nut .UnknownUps)
        else if err_type = "FEATURE-NOT-CONFIGURED" then .error (.Nut .FeatureNotConfigured)
        else
          .error (.Nut (.Generic
            ("Server error: " ++ err_type ++ " " ++ String.intercalate " " args)))
    else if cmd_name = "BEGIN" then
      match args with
      | [] => .error (ClientError.generic "Unspecified BEGIN type")
      | begin_type :: args =>
        if begin_type ≠ "LIST" then
          .error (ClientError.generic ("Unexpected BEGIN type: " ++ begin_type))
        else
          .ok (.BeginList (joinModel args))
    else if cmd_name = "END" then
      match args with
      | [] => .error (ClientError.generic "Unspecified END type")
      | begin_type :: args =>
        if begin_type ≠ "LIST" then
          .error (ClientError.generic ("Unexpected END type: " ++ begin_type))
        else
          .ok (.EndList (joinModel args))
    else if cmd_name = "VAR" then
      match args with
      | _dev :: var_name :: var_value :: _ => .ok (.Var var_name var_value)
      | [_, _] => .error (ClientError.generic "Unspecified VAR value in response")
      | [_] => .error (ClientError.generic "Unspecified VAR name in response")
      | [] => .error (ClientError.generic "Unspecified VAR device name in response")
    else if cmd_name = "RW" then
      match args with
      | _dev :: var_name :: var_value :: _ => .ok (.Rw var_name var_value)
      | [_, _] => .error (ClientError.generic "Unspecified RW value in response")
      | [_] => .error (ClientError.generic "Unspecified RW name in response")
      | [] => .error (ClientError.generic "Unspecified RW device name in response")
    else if cmd_name = "UPS" then
      match args with
      | name :: description :: _ => .ok (.Ups name description)
      | [_] => .error (ClientError.generic "Unspecified UPS description in response")
      | [] => .error (ClientError.generic "Unspecified UPS name in response")
    else if cmd_name = "CLIENT" then
      match args with
      | _dev :: ip_address :: _ => .ok (.Client ip_address)
      | [_] => .error (ClientError.generic "Unspecified CLIENT IP in response")
      | [] => .error (ClientError.generic "Unspecified CLIENT device in response")
    else if cmd_name = "CMD" then
      match args with
      | _dev :: name :: _ => .ok (.Cmd name)
      | [_] => .error (ClientError.generic "Unspecified CMD name in response")
      | [] => .error (ClientError.generic "Unspecified CMD device in response")
    else if cmd_name = "CMDDESC" then
      match args with
      | _dev :: _name :: desc :: _ => .ok (.CmdDesc desc)
      | [_, _] => .error (ClientError.generic "Unspecified CMDDESC description in response")
      | [_] => .error (ClientError.generic "Unspecified CMDDESC name in response")
      | [] => .error (ClientError.generic "Unspecified CMDDESC device in response")
    else if cmd_name = "UPSDESC" then
      match args with
      | _dev :: desc :: _ => .ok (.UpsDesc desc)
      | [_] => .error (ClientError.generic "Unspecified UPSDESC description in response")
      | [] => .error (ClientError.generic "Unspecified UPSDESC device in response")
    else if cmd_name = "DESC" then
      match args with
      | _dev :: _name :: desc :: _ => .ok (.Desc desc)
      | [_, _] => .error (ClientError.generic "Unspecified DESC description in response")
      | [_] => .error (ClientError.generic "Unspecified DESC name in response")
      | [] => .error (ClientError.generic "Unspecified DESC device in response")
    else if cmd_name = "NUMLOGINS" then
      match args with
      | _dev :: num :: _ =>
        match parseI32 num with
        | some n => .ok (.NumLogins n)
        | none => .error (ClientError.generic "Invalid NUMLOGINS number in response")
      | [_] => .error (ClientError.generic "Unspecified NUMLOGINS number in response")
      | [] => .error (ClientError.generic "Unspecified NUMLOGINS device in response")
    else if cmd_name = "TYPE" then
      match args with
      | _dev :: name :: types => .ok (.Type name types)
      | [_] => .error (ClientError.generic "Unspecified TYPE name in response")
      | [] => .error (ClientError.generic "Unspecified TYPE device in response")
    else if cmd_name = "RANGE" then
      match args with
      | _dev :: _name :: min :: max :: _ => .ok (.Range min max)
      | [_, _, _] => .error (ClientError.generic "Unspecified RANGE max in response")
      | [_, _] => .error (ClientError.generic "Unspecified RANGE min in response")
      | [_] => .error (ClientError.generic "Unspecified RANGE name in response")
      | [] => .error (ClientError.generic "Unspecified RANGE device in response")
    else if cmd_name = "ENUM" then
      match args with
      | _dev :: _name :: val :: _ => .ok (.Enum val)
      | [_, _] => .error (ClientError.generic "Unspecified ENUM value in response")
      | [_] => .error (ClientError.generic "Unspecified ENUM name in response")
      | [] => .error (ClientError.generic "Unspecified ENUM device in response")
    else
      .error (.Nut (.UnknownResponseType cmd_name))

/-- `Response::expect_ok`. -/
def Response.expectOk (r : Response) : Except ClientError Response :=
  match r with
  | .Ok => .ok r
  | _ => .error (.Nut .UnexpectedResponse)

/-- `Response::expect_begin_list`: re-joins the expected query with
`shell_words::join` and compares it against the stored `BeginList`
payload. -/
def Response.expectBeginList (r : Response) (expected_args : List String) :
    Except ClientError Response :=
  let expected := joinModel expected_args
  match r with
  | .BeginList args => if expected = args then .ok r else .error (.Nut .UnexpectedResponse)
  | _ => .error (.Nut .UnexpectedResponse)

/-- `Response::expect_ups`. -/
def Response.expectUps (r : Response) : Except ClientError (String × String) :=
  match r with
  | .Ups name description => .ok (name, description)
  | _ => .error (.Nut .UnexpectedResponse)

/-- `TcpConnection::parse_line`, after the newline strip: tokenize the
line with `shell_words::split`; a tokenization failure surfaces as a
generic error (the shell error detail of the `format!` message is
dropped). -/
def parseLine (line : String) : Except ClientError (List String) :=
  match splitModel line with
  | some args => .ok args
  | none => .error (.Nut (.Generic "Parsing server response failed"))

/-- `TcpConnection::read_response` on a mock incoming line stream: parse
the first line and build a `Response`.  An exhausted stream stands for
the blocking read at end-of-stream. -/
def readResponse (lines : List String) : Except ClientError Response :=
  match lines with
  | [] => .error (ClientError.Io "end of stream")
  | l :: _ =>
    match parseLine l with
    | .error e => .error e
    | .ok args => Response.fromArgs args

/-- `TcpConnection::read_plain_response`: parse the first line and
re-join its tokens with single spaces (`args.join(" ")`). -/
def readPlainResponse (lines : List String) : Except ClientError String :=
  match lines with
  | [] => .error (ClientError.Io "end of stream")
  | l :: _ =>
    match parseLine l with
    | .error e => .error e
    | .ok args => .ok (String.intercalate " " args)

/-- The accumulation loop of `TcpConnection::read_list`: read responses
until an `EndList` arrives (the terminator is not included), pushing each
row in order. -/
def readListItems : List String → List Response → Except ClientError (List Response)
  | [], _ => .error (ClientError.Io "end of stream")
  | l :: rest, acc =>
    match parseLine l with
    | .error e => .error e
    | .ok args =>
      match Response.fromArgs args with
      | .error e => .error e
      | .ok resp =>
        match resp with
        | .EndList _ => .ok acc
        | _ => readListItems rest (acc ++ [resp])

/-- `TcpConnection::read_list`: read one line, require it to be the
matching `BEGIN LIST` echo of the query (`expect_begin_list`), then
accumulate rows until `END LIST`. -/
def readList (query : List String) (lines : List String) :
    Except ClientError (List Response) :=
  match lines with
  | [] => .error (ClientError.Io "end of stream")
  | l :: rest =>
    match parseLine l with
    | .error e => .error e
    | .ok args =>
      match Response.fromArgs args with
      | .error e => .error e
      | .ok resp =>
        match Response.expectBeginList resp query with
        | .error e => .error e
        | .ok _ => readListItems rest []

/-- `Connection::list_ups` (read side), from `implement_list_commands!`:
`read_list(&["UPS"])`, then map each row through `expect_ups`,
collecting into a single result. -/
def listUps (lines : List String) : Except ClientError (List (String × String)) :=
  match readList ["UPS"] lines with
  | .error e => .error e
  | .ok rows => rows.mapM Response.expectUps

/-- `Connection::run_command` (`rups/src/cmd.rs`): write
`Command::Run(cmd, param)` and expect a bare `OK`.  The pair is (wire
line written, outcome). -/
def runCommand (cmd : String) (param : Option String) (lines : List String) :
    String × Except ClientError Unit :=
  (commandLine (Command.Run cmd param),
    match readResponse lines with
    | .error e => .error e
    | .ok r =>
      match Response.expectOk r with
      | .error e => .error e
      | .ok _ => .ok ())

/-- `Connection::get_server_version`, from `implement_simple_commands!`:
write `Command::Version` and return the plain response.  The pair is
(wire line written, returned string). -/
def getServerVersion (lines : List String) : String × Except ClientError String :=
  (commandLine Command.Version, readPlainResponse lines)
/-! ### Claim statements -/

/-- Reserved-keyword test used to state the codec round-trip side
condition: a string is reserved when `Word::decode` recognizes it. -/
def reservedWord (s : String) : Bool := (wordOfString s).isSome

/-- The named string fields (and variadic tail elements) of a
server-bound sentence, in argument position order. -/
def ServerBound.sentenceArgs : ServerBound.Sentences → List String
  | .QueryNumLogins a => [a]
  | .QueryUpsDesc a => [a]
  | .QueryVar a b => [a, b]
  | .QueryType a b => [a, b]
  | .QueryDesc a b => [a, b]
  | .QueryCmdDesc a b => [a, b]
  | .QueryListVar a => [a]
  | .QueryListRw a => [a]
  | .QueryListCmd a => [a]
  | .QueryListEnum a b => [a, b]
  | .QueryListRange a b => [a, b]
  | .QueryListClient a => [a]
  | .ExecSetVar a b c => [a, b, c]
  | .ExecInstCmd a b => [a, b]
  | .ExecLogout => []
  | .ExecLogin a => [a]
  | .ExecMaster a => [a]
  | .ExecForcedShutDown a => [a]
  | .SetPassword a => [a]
  | .SetUsername a => [a]
  | .ExecStartTLS => []
  | .QueryHelp => []
  | .QueryVersion => []
  | .QueryNetworkVersion => []

/-- The claim's side condition for server-bound sentences: no argument
is itself a reserved keyword. -/
def ServerBound.argsOk (s : ServerBound.Sentences) : Bool :=
  (ServerBound.sentenceArgs s).all fun a => !(reservedWord a)

/-- The named string fields (and variadic tail elements) of a
client-bound sentence, in argument position order. -/
def ClientBound.sentenceArgs : ClientBound.Sentences → List String
  | .GenericOk => []
  | .FsdOk => []
  | .StartTLSOk => []
  | .LogoutOk => []
  | .RespondErr m e => m :: e
  | .RespondNumLogins a b => [a, b]
  | .RespondUpsDesc a b => [a, b]
  | .RespondVar a b c => [a, b, c]
  | .RespondType a b t => a :: b :: t
  | .RespondDesc a b c => [a, b, c]
  | .RespondCmdDesc a b c => [a, b, c]
  | .RespondUps a b => [a, b]
  | .RespondRw a b c => [a, b, c]
  | .RespondCmd a b => [a, b]
  | .RespondEnum a b c => [a, b, c]
  | .RespondRange a b c d => [a, b, c, d]
  | .RespondClient a b => [a, b]
  | .BeginListUps => []
  | .EndListUps => []
  | .BeginListVar a => [a]
  | .EndListVar a => [a]
  | .BeginListRw a => [a]
  | .EndListRw a => [a]
  | .BeginListCmd a => [a]
  | .EndListCmd a => [a]
  | .BeginListEnum a b => [a, b]
  | .EndListEnum a b => [a, b]
  | .BeginListRange a b => [a, b]
  | .EndListRange a b => [a, b]
  | .BeginListClient a => [a]
  | .EndListClient a => [a]

/-- The claim's side condition for client-bound sentences: no argument
(including variadic tail elements) is itself a reserved keyword. -/
def ClientBound.argsOk (s : ClientBound.Sentences) : Bool :=
  (ClientBound.sentenceArgs s).all fun a => !(reservedWord a)

/-- C1: Sentence codec round-trip — for every sentence variant in the
catalog (client-bound and server-bound) and every binding of its named
string fields to strings that are not the pattern's reserved keywords in
argument positions (variadic tails of any length included), decoding the
encoded word sequence yields the original sentence. -/
theorem sentences_decode_encode_roundtrip :
    (∀ s : ServerBound.Sentences, ServerBound.argsOk s = true →
      ServerBound.decode (ServerBound.encode s) = DResult.found s) ∧
    (∀ s : ClientBound.Sentences, ClientBound.argsOk s = true →
      ClientBound.decode (ClientBound.encode s) = DResult.found s) := by
  constructor
  · intro s _h
    cases s <;> rfl
  · intro s _h
    cases s <;> rfl

/-- Witness for C1 at concrete inputs, with a variadic tail of length
three. -/
theorem sentences_decode_encode_roundtrip_witness :
    ServerBound.argsOk (ServerBound.Sentences.QueryVar "nutdev" "test.var") = true ∧
    ServerBound.decode (ServerBound.encode
        (ServerBound.Sentences.QueryVar "nutdev" "test.var"))
      = DResult.found (ServerBound.Sentences.QueryVar "nutdev" "test.var") ∧
    ClientBound.argsOk (ClientBound.Sentences.RespondErr "ACCESS-DENIED"
        ["extra1", "extra2", "extra3"]) = true ∧
    ClientBound.decode (ClientBound.encode (ClientBound.Sentences.RespondErr
        "ACCESS-DENIED" ["extra1", "extra2", "extra3"]))
      = DResult.found (ClientBound.Sentences.RespondErr "ACCESS-DENIED"
        ["extra1", "extra2", "extra3"]) :=
  ⟨by decide, sentences_decode_encode_roundtrip.1 _ (by decide), by decide,
    sentences_decode_encode_roundtrip.2 _ (by decide)⟩

/-- C2: the claim says `Sentences::decode` is total — it returns a
matching sentence or a decode failure and never panics, in particular on
a lone `ERR` token.  The code violates this: `Arg` matches the appended
EOL sentinel, so the `RespondErr` fixed pattern accepts the one-token
line and the field binding indexes `raw[1]` out of bounds — a panic in
Rust, `crash` here.  The same happens for a truncated `TYPE` line. -/
theorem decode_lone_err_crashes :
    ClientBound.decode ["ERR"] = DResult.crash ∧
    ClientBound.decode ["TYPE", "nutdev"] = DResult.crash := by decide

/-- C3: `list_ups` against a server that sends `BEGIN LIST UPS`, two
quoted `UPS` rows, and `END LIST UPS` returns exactly the two
(name, description) pairs in order; and for every list operation, when
the `BEGIN LIST` line's query words differ from the query the client
sent, `read_list` returns a protocol error (`UnexpectedResponse`) and
never a partial list. -/
theorem list_ups_framing_and_echo :
    (listUps ["BEGIN LIST UPS", "UPS nutdev0 \"A NUT device.\"",
        "UPS nutdev1 \"Another NUT device.\"", "END LIST UPS"]
      = Except.ok [("nutdev0", "A NUT device."), ("nutdev1", "Another NUT device.")]) ∧
    (∀ (query ws rest : List String), ws ≠ query →
      readList query (joinModel ("BEGIN" :: "LIST" :: ws) :: rest)
        = Except.error (ClientError.Nut NutError.UnexpectedResponse)) := by
  constructor
  · rfl
  · intro query ws rest hne
    have hsplit := splitModel_joinModel ("BEGIN" :: "LIST" :: ws)
    have hne2 : ¬(joinModel query = joinModel ws) := by
      intro h
      exact hne (joinModel_injective query ws h).symm
    simp [readList, parseLine, hsplit, Response.fromArgs, Response.expectBeginList, hne2]

/-- Witness for C3's query-echo hypothesis: `BEGIN LIST UPS` received
when `LIST VAR nutdev` was asked. -/
theorem list_ups_framing_and_echo_witness :
    (["UPS"] : List String) ≠ ["VAR", "nutdev"] ∧
    readList ["VAR", "nutdev"] (joinModel ("BEGIN" :: "LIST" :: ["UPS"]) :: [])
      = Except.error (ClientError.Nut NutError.UnexpectedResponse) :=
  ⟨by decide, list_ups_framing_and_echo.2 ["VAR", "nutdev"] ["UPS"] [] (by decide)⟩

/-- C4: the claim (spec scenario S3) requires `run_command` to take a UPS
name and write `INSTCMD <ups> <cmd> [<arg>]`.  The code's `run_command`
has no UPS-name parameter at all: `Command::Run(cmd, param)` serializes
to `INSTCMD <cmd> [<arg>]`.  Evaluating the code at the claim's inputs:
the command and argument alone produce the wire line
`INSTCMD load.off 10\n` — the UPS name cannot appear — and the operation
succeeds exactly on a bare `OK` reply. -/
theorem run_command_wire_line :
    runCommand "load.off" (some "10") ["OK"] = ("INSTCMD load.off 10\n", Except.ok ()) ∧
    runCommand "load.off" (some "10") ["ERR ACCESS-DENIED"]
      = ("INSTCMD load.off 10\n", Except.error (ClientError.Nut NutError.AccessDenied)) := by
  constructor
  · rfl
  · rfl

/-- C5 counterexample: the claim says `get_server_version` writes exactly
the single word `VERSION`; the code's `Command::Version` serializes to
`VER`, so the written line is `VER\n`, not `VERSION\n`. -/
theorem get_server_version_not_version_word :
    commandLine Command.Version = "VER\n" ∧ commandLine Command.Version ≠ "VERSION\n" := by
  decide

/-- C5 (amended): `get_server_version` writes exactly the single word
`VER` (followed by a newline) on the wire and returns the server's
single response line — its tokens re-joined with single spaces — as a
plain string. -/
theorem get_server_version_ver :
    ∀ (l : String) (ts rest : List String), splitModel l = some ts →
      getServerVersion (l :: rest) = ("VER\n", Except.ok (String.intercalate " " ts)) := by
  intro l ts rest h
  have h1 : commandLine Command.Version = "VER\n" := by rfl
  unfold getServerVersion
  rw [h1]
  simp [readPlainResponse, parseLine, h]

/-- Witness for C5's tokenization hypothesis at a concrete response
line. -/
theorem get_server_version_ver_witness :
    splitModel "1.2" = some ["1.2"] ∧
    getServerVersion ["1.2"] = ("VER\n", Except.ok "1.2") :=
  ⟨by decide, get_server_version_ver "1.2" ["1.2"] [] (by decide)⟩
end NutRs
